import Mathlib

/-
  Verification of the PolytopeIntersector core (src/vsg/utils/PolytopeIntersector.cpp).

  The floating-point arithmetic of the source is modelled over the real numbers;
  external maths helpers of the engine (vector length, plane-times-matrix,
  matrix-times-point, computeTransform, dsphere::valid) are not part of the
  source excerpt and are modelled from the spec where noted.
-/

namespace vsg

/-- Three-component vector over the reals, modelling the `vec3`/`dvec3`/`t_vec3` value types. -/
structure Vec3 where
  x : ℝ
  y : ℝ
  z : ℝ

instance : Zero Vec3 := ⟨⟨0, 0, 0⟩⟩

instance : Inhabited Vec3 := ⟨0⟩

instance : Add Vec3 := ⟨fun a b => ⟨a.x + b.x, a.y + b.y, a.z + b.z⟩⟩

instance : Sub Vec3 := ⟨fun a b => ⟨a.x - b.x, a.y - b.y, a.z - b.z⟩⟩

instance : SMul ℝ Vec3 := ⟨fun r v => ⟨r * v.x, r * v.y, r * v.z⟩⟩

/-- Dot product of two vectors (external maths header helper `dot`). -/
def Vec3.dot (a b : Vec3) : ℝ := a.x * b.x + a.y * b.y + a.z * b.z

/-- Cross product of two vectors (external maths header helper `cross`). -/
def Vec3.cross (a b : Vec3) : Vec3 :=
  ⟨a.y * b.z - a.z * b.y, a.z * b.x - a.x * b.z, a.x * b.y - a.y * b.x⟩

/-- Modelled from the spec: Euclidean length of a vector, the external `length` helper
used by the triangle intersector to retain the segment's length. -/
noncomputable def Vec3.length (v : Vec3) : ℝ := Real.sqrt (v.dot v)

/-- Four-by-four real matrix, modelling `dmat4`. -/
abbrev Mat4 := Matrix (Fin 4) (Fin 4) ℝ

/-- Half-space plane represented by its coefficient vector (a, b, c, d), modelling `dplane`. -/
abbrev Plane := Fin 4 → ℝ

/-- Ordered list of planes, modelling `vsg::Polytope`. -/
abbrev Polytope := List Plane

/-- Modelled from the spec: transforming a plane by a matrix applies the matrix directly
to the plane's coefficient vector (right multiplication, the engine's `pl * matrix`
convention used by the constructor and by pushTransform). -/
def planeMulMat (pl : Plane) (M : Mat4) : Plane := Matrix.vecMul pl M

/-- Modelled from the spec: application of a `dmat4` to a `dvec3` point (the external
`matrix * vector` operator, a homogeneous transform with perspective divide). -/
noncomputable def applyMat (M : Mat4) (v : Vec3) : Vec3 :=
  let w := M 0 3 * v.x + M 1 3 * v.y + M 2 3 * v.z + M 3 3
  ⟨(M 0 0 * v.x + M 1 0 * v.y + M 2 0 * v.z + M 3 0) / w,
   (M 0 1 * v.x + M 1 1 * v.y + M 2 1 * v.z + M 3 1) / w,
   (M 0 2 * v.x + M 1 2 * v.y + M 2 2 * v.z + M 3 2) / w⟩

/-- Scene-graph path: each node of the path is abstracted by the action of its
transform on an accumulated matrix (identity action for non-transform nodes). -/
abbrev NodePath := List (Mat4 → Mat4)

/-- Modelled from the spec: the external `computeTransform(nodePath)` helper, which
accumulates the local-to-world matrix in effect along the node path. -/
def computeTransform (np : NodePath) : Mat4 := np.foldl (fun m t => t m) 1

/-- Abstraction of the list of vertex-attribute arrays active at a hit
(`arrayStateStack.back()->arrays`); the identity of the arrays is opaque to this core. -/
abbrev DataList := List ℕ

/-- One confirmed intersection record, `PolytopeIntersector::Intersection`. -/
structure Intersection where
  localIntersection : Vec3
  worldIntersection : Vec3
  ratio : ℝ
  localToWorld : Mat4
  nodePath : NodePath
  arrays : DataList
  indexRatios : List (ℕ × ℝ)
  instanceIndex : ℕ

/-- State of the orchestrator `vsg::PolytopeIntersector`: its own members
(`_polytopeStack`, `intersections`) plus the inherited stacks of its `Intersector`
base class (`localToWorldStack()`, `worldToLocalStack()`, `_nodePath`, `arrayStateStack`). -/
structure PolytopeIntersector where
  polytopeStack : List Polytope
  localToWorldStack : List Mat4
  worldToLocalStack : List Mat4
  intersections : List Intersection
  nodePath : NodePath
  arrayStateStack : List DataList

/-- Constructor `PolytopeIntersector(const Polytope&, ...)`: the polytope stack is
seeded with exactly the given world-space polytope; the base class starts with empty
transform stacks, an empty node path and one initial array state. -/
def mkPolytopeIntersector (in_polytope : Polytope) : PolytopeIntersector :=
  { polytopeStack := [in_polytope], localToWorldStack := [], worldToLocalStack := [],
    intersections := [], nodePath := [], arrayStateStack := [[]] }

/-- Viewport geometry of the camera (`VkViewport`): origin, size and depth range. -/
structure Viewport where
  x : ℝ
  y : ℝ
  width : ℝ
  height : ℝ
  minDepth : ℝ
  maxDepth : ℝ

/-- Camera: projection and view matrices together with the viewport. -/
structure Camera where
  projectionMatrix : Mat4
  viewMatrix : Mat4
  viewport : Viewport

/-- The `ndc_xMin` local of the camera constructor:
`(viewport.width > 0) ? (2.0 * (xMin - viewport.x) / viewport.width - 1.0) : xMin`. -/
noncomputable def ndc_xMin (viewport : Viewport) (xMin : ℝ) : ℝ :=
  if viewport.width > 0 then 2 * (xMin - viewport.x) / viewport.width - 1 else xMin

/-- The `ndc_xMax` local of the camera constructor. -/
noncomputable def ndc_xMax (viewport : Viewport) (xMax : ℝ) : ℝ :=
  if viewport.width > 0 then 2 * (xMax - viewport.x) / viewport.width - 1 else xMax

/-- The `ndc_yMin` local of the camera constructor: the y axis is flipped, so the
minimum NDC bound is computed from `yMax`, falling back to the raw `yMin`:
`(viewport.height > 0) ? (1.0 - 2.0 * (yMax - viewport.y) / viewport.height) : yMin`. -/
noncomputable def ndc_yMin (viewport : Viewport) (yMin yMax : ℝ) : ℝ :=
  if viewport.height > 0 then 1 - 2 * (yMax - viewport.y) / viewport.height else yMin

/-- The `ndc_yMax` local of the camera constructor, computed from `yMin`. -/
noncomputable def ndc_yMax (viewport : Viewport) (yMin yMax : ℝ) : ℝ :=
  if viewport.height > 0 then 1 - 2 * (yMin - viewport.y) / viewport.height else yMax

/-- Constructor `PolytopeIntersector(const Camera&, xMin, yMin, xMax, yMax, ...)`:
converts the screen rectangle to NDC, builds the six clip-space planes honouring the
camera's depth convention, transforms them to eye space by the projection matrix and
to world space by the view matrix, and seeds the polytope stack with the world-space
polytope. -/
noncomputable def mkPolytopeIntersectorCamera (camera : Camera)
    (xMin yMin xMax yMax : ℝ) : PolytopeIntersector :=
  let viewport := camera.viewport
  let nxMin := ndc_xMin viewport xMin
  let nxMax := ndc_xMax viewport xMax
  let nyMin := ndc_yMin viewport yMin yMax
  let nyMax := ndc_yMax viewport yMin yMax
  let projectionMatrix := camera.projectionMatrix
  let viewMatrix := camera.viewMatrix
  let reverse_depth := projectionMatrix 2 2 > 0
  let clipspace : Polytope :=
    [![1, 0, 0, -nxMin], ![-1, 0, 0, nxMax], ![0, 1, 0, -nyMin], ![0, -1, 0, nyMax]]
      ++ (if reverse_depth then
            [![0, 0, 1, -viewport.maxDepth], ![0, 0, -1, viewport.minDepth]]
          else
            [![0, 0, -1, viewport.maxDepth], ![0, 0, 1, -viewport.minDepth]])
  let eyespace := clipspace.map (fun pl => planeMulMat pl projectionMatrix)
  let worldspace := eyespace.map (fun pl => planeMulMat pl viewMatrix)
  { polytopeStack := [worldspace], localToWorldStack := [], worldToLocalStack := [],
    intersections := [], nodePath := [], arrayStateStack := [[]] }

/-- `PolytopeIntersector::add`: builds the intersection record from the local
coordinate, the transform computed from the current node path, the active arrays and
the supplied ratio, index ratios and instance index, and appends it to the result list. -/
noncomputable def PolytopeIntersector.add (s : PolytopeIntersector) (coord : Vec3)
    (ratio : ℝ) (indexRatios : List (ℕ × ℝ)) (instanceIndex : ℕ) :
    PolytopeIntersector × Intersection :=
  let localToWorld := computeTransform s.nodePath
  let intersection : Intersection :=
    { localIntersection := coord, worldIntersection := applyMat localToWorld coord,
      ratio := ratio, localToWorld := localToWorld, nodePath := s.nodePath,
      arrays := (s.arrayStateStack.getLast?).getD [], indexRatios := indexRatios,
      instanceIndex := instanceIndex }
  ({ s with intersections := s.intersections ++ [intersection] }, intersection)

/-- `PolytopeIntersector::pushTransform`: the new local-to-world matrix is the
transform applied to the previous local-to-world stack top (identity when empty); its
inverse is pushed on the world-to-local stack, and the front (world-space) polytope,
re-expressed by the new local-to-world matrix, is pushed on the polytope stack. -/
noncomputable def PolytopeIntersector.pushTransform (s : PolytopeIntersector)
    (transform : Mat4 → Mat4) : PolytopeIntersector :=
  let localToWorld :=
    match s.localToWorldStack.getLast? with
    | none => transform 1
    | some m => transform m
  let worldToLocal := localToWorld⁻¹
  let worldspace := s.polytopeStack.headI
  let localspace := worldspace.map (fun pl => planeMulMat pl localToWorld)
  { s with localToWorldStack := s.localToWorldStack ++ [localToWorld],
           worldToLocalStack := s.worldToLocalStack ++ [worldToLocal],
           polytopeStack := s.polytopeStack ++ [localspace] }

/-- `PolytopeIntersector::popTransform`: unconditionally pops one entry off each of
the three parallel stacks (`pop_back` on each vector; no guard is present). -/
def PolytopeIntersector.popTransform (s : PolytopeIntersector) : PolytopeIntersector :=
  { s with polytopeStack := s.polytopeStack.dropLast,
           localToWorldStack := s.localToWorldStack.dropLast,
           worldToLocalStack := s.worldToLocalStack.dropLast }

/-- Bounding sphere `dsphere`. -/
structure dsphere where
  center : Vec3
  radius : ℝ

/-- Modelled from the spec: the external `dsphere::valid()` predicate consulted by the
fast rejection test (a sphere is valid when its radius is non-negative; default
constructed spheres carry a negative radius). -/
def dsphere.valid (bs : dsphere) : Prop := 0 ≤ bs.radius

noncomputable instance (bs : dsphere) : Decidable bs.valid :=
  inferInstanceAs (Decidable (0 ≤ bs.radius))

/-- `PolytopeIntersector::intersects(const dsphere&)`: rejects invalid spheres, and
otherwise conservatively reports a possible intersection (the concrete rejection logic
is disabled in the source). -/
noncomputable def PolytopeIntersector.intersects (s : PolytopeIntersector)
    (bs : dsphere) : Bool :=
  if ¬ bs.valid then false else true

/-- `PolytopeIntersector::intersectDraw`: the geometric test is disabled in the source;
the live path records the previous result-list size, leaves the state untouched and
returns whether the size changed. -/
def PolytopeIntersector.intersectDraw (s : PolytopeIntersector)
    (firstVertex vertexCount firstInstance instanceCount : ℕ) :
    Bool × PolytopeIntersector :=
  let previous_size := s.intersections.length
  (decide (s.intersections.length ≠ previous_size), s)

/-- `PolytopeIntersector::intersectDrawIndexed`: same disabled shape as
`intersectDraw`. -/
def PolytopeIntersector.intersectDrawIndexed (s : PolytopeIntersector)
    (firstIndex indexCount firstInstance instanceCount : ℕ) :
    Bool × PolytopeIntersector :=
  let previous_size := s.intersections.length
  (decide (s.intersections.length ≠ previous_size), s)

/-- The templated `TriangleIntersector<V>` helper, instantiated at double precision. -/
structure TriangleIntersector where
  start : Vec3
  end_ : Vec3
  instanceIndex : ℕ
  _d : Vec3
  _length : ℝ
  _inverse_length : ℝ
  _d_invX : Vec3
  _d_invY : Vec3
  _d_invZ : Vec3
  vertices : List Vec3

/-- Constructor of `TriangleIntersector`: normalises the segment direction, retaining
the segment's length and inverse length (zero inverse for a zero-length segment). -/
noncomputable def mkTriangleIntersector (in_start in_end : Vec3)
    (in_vertices : List Vec3) : TriangleIntersector :=
  let d0 := in_end - in_start
  let len := d0.length
  let inv_len := if len ≠ 0 then 1 / len else 0
  let d := inv_len • d0
  { start := in_start, end_ := in_end, instanceIndex := 0,
    _d := d, _length := len, _inverse_length := inv_len,
    _d_invX := if d.x ≠ 0 then (1 / d.x) • d else ⟨0, 0, 0⟩,
    _d_invY := if d.y ≠ 0 then (1 / d.y) • d else ⟨0, 0, 0⟩,
    _d_invZ := if d.z ≠ 0 then (1 / d.z) • d else ⟨0, 0, 0⟩,
    vertices := in_vertices }

/-- A freshly constructed `TriangleIntersector` whose `instanceIndex` member has been
assigned, as done by `intersectDrawIndexed` before testing the triangles of an
instance. -/
noncomputable def mkTriangleIntersectorInst (in_start in_end : Vec3)
    (in_vertices : List Vec3) (inst : ℕ) : TriangleIntersector :=
  { mkTriangleIntersector in_start in_end in_vertices with instanceIndex := inst }

/-- `TriangleIntersector::intersect(i0, i1, i2)`: the two-sided Moeller-Trumbore test
of the source, with the `1e-10` dead zone around a zero determinant; on acceptance the
record is appended through `PolytopeIntersector::add` and `true` is returned. The
state of the owning intersector is passed explicitly. Out-of-range vertex lookups are
totalised with a default vertex. -/
noncomputable def TriangleIntersector.intersect (ti : TriangleIntersector)
    (s : PolytopeIntersector) (i0 i1 i2 : ℕ) : Bool × PolytopeIntersector :=
  let v0 := ti.vertices.getD i0 default
  let v1 := ti.vertices.getD i1 default
  let v2 := ti.vertices.getD i2 default
  let T := ti.start - v0
  let E2 := v2 - v0
  let E1 := v1 - v0
  let P := Vec3.cross ti._d E2
  let det := Vec3.dot P E1
  let epsilon : ℝ := 1 / 10 ^ 10
  if det > epsilon then
    let u := Vec3.dot P T
    if u < 0 ∨ u > det then (false, s)
    else
      let Q := Vec3.cross T E1
      let v := Vec3.dot Q ti._d
      if v < 0 ∨ v > det then (false, s)
      else if u + v > det then (false, s)
      else
        let inv_det := 1 / det
        let t := Vec3.dot Q E2 * inv_det
        if t < 0 ∨ t > ti._length then (false, s)
        else
          let r0 := 1 - u * inv_det - v * inv_det
          let r1 := u * inv_det
          let r2 := v * inv_det
          let r := t * ti._inverse_length
          let intersectionPoint := r0 • v0 + r1 • v1 + r2 • v2
          (true, (s.add intersectionPoint r [(i0, r0), (i1, r1), (i2, r2)]
            ti.instanceIndex).1)
  else if det < -epsilon then
    let u := Vec3.dot P T
    if u > 0 ∨ u < det then (false, s)
    else
      let Q := Vec3.cross T E1
      let v := Vec3.dot Q ti._d
      if v > 0 ∨ v < det then (false, s)
      else if u + v < det then (false, s)
      else
        let inv_det := 1 / det
        let t := Vec3.dot Q E2 * inv_det
        if t < 0 ∨ t > ti._length then (false, s)
        else
          let r0 := 1 - u * inv_det - v * inv_det
          let r1 := u * inv_det
          let r2 := v * inv_det
          let r := t * ti._inverse_length
          let intersectionPoint := r0 • v0 + r1 • v1 + r2 • v2
          (true, (s.add intersectionPoint r [(i0, r0), (i1, r1), (i2, r2)]
            ti.instanceIndex).1)
  else (false, s)

/-- The determinant `det = dot(P, E1)` computed by `intersect` for the given indices. -/
noncomputable def TriangleIntersector.triDet (ti : TriangleIntersector)
    (i0 i1 i2 : ℕ) : ℝ :=
  let v0 := ti.vertices.getD i0 default
  let v1 := ti.vertices.getD i1 default
  let v2 := ti.vertices.getD i2 default
  Vec3.dot (Vec3.cross ti._d (v2 - v0)) (v1 - v0)

/-- The barycentric test value `u = dot(P, T)` computed by `intersect`. -/
noncomputable def TriangleIntersector.triU (ti : TriangleIntersector)
    (i0 i1 i2 : ℕ) : ℝ :=
  let v0 := ti.vertices.getD i0 default
  let v2 := ti.vertices.getD i2 default
  Vec3.dot (Vec3.cross ti._d (v2 - v0)) (ti.start - v0)

/-- The barycentric test value `v = dot(Q, _d)` computed by `intersect`. -/
noncomputable def TriangleIntersector.triV (ti : TriangleIntersector)
    (i0 i1 i2 : ℕ) : ℝ :=
  let v0 := ti.vertices.getD i0 default
  let v1 := ti.vertices.getD i1 default
  Vec3.dot (Vec3.cross (ti.start - v0) (v1 - v0)) ti._d

/-- The parametric hit distance `t = dot(Q, E2) * inv_det` along the normalised
direction computed by `intersect` (the same expression in both winding branches). -/
noncomputable def TriangleIntersector.triT (ti : TriangleIntersector)
    (i0 i1 i2 : ℕ) : ℝ :=
  let v0 := ti.vertices.getD i0 default
  let v1 := ti.vertices.getD i1 default
  let v2 := ti.vertices.getD i2 default
  Vec3.dot (Vec3.cross (ti.start - v0) (v1 - v0)) (v2 - v0) * (1 / ti.triDet i0 i1 i2)

/-- One traversal callback into the transform stack manager. -/
inductive StackOp where
  | push (t : Mat4 → Mat4)
  | pop

/-- Apply one traversal callback to the intersector state. -/
noncomputable def applyOp (s : PolytopeIntersector) : StackOp → PolytopeIntersector
  | StackOp.push t => s.pushTransform t
  | StackOp.pop => s.popTransform

/-- Run a sequence of push/pop callbacks against the intersector state. -/
noncomputable def execOps (s : PolytopeIntersector) (ops : List StackOp) :
    PolytopeIntersector :=
  ops.foldl applyOp s

/-- Whether a callback is a push. -/
def StackOp.isPush : StackOp → Bool
  | StackOp.push _ => true
  | StackOp.pop => false

/-- Number of pushTransform callbacks in a sequence. -/
def pushCount (ops : List StackOp) : ℕ := ops.countP StackOp.isPush

/-- Number of popTransform callbacks in a sequence. -/
def popCount (ops : List StackOp) : ℕ := ops.countP (fun op => ! op.isPush)

/-- The triangle of the spec's triangle-intersector test. -/
def testVertices : List Vec3 := [⟨0, 0, 0⟩, ⟨1, 0, 0⟩, ⟨0, 1, 0⟩]

/-- The triangle intersector of the spec's test: segment from (0.25, 0.25, 1) to
(0.25, 0.25, -1) against `testVertices`. -/
noncomputable def testTI : TriangleIntersector :=
  mkTriangleIntersector ⟨1/4, 1/4, 1⟩ ⟨1/4, 1/4, -1⟩ testVertices

/-- The record produced by the spec's triangle-intersector test. -/
noncomputable def testRecord : Intersection :=
  { localIntersection := ⟨1/4, 1/4, 0⟩,
    worldIntersection := applyMat (computeTransform []) ⟨1/4, 1/4, 0⟩,
    ratio := 1/2, localToWorld := computeTransform [], nodePath := [], arrays := [],
    indexRatios := [(0, 1/2), (1, 1/4), (2, 1/4)], instanceIndex := 0 }

/-- The intersector state after the spec's triangle-intersector test. -/
noncomputable def testState : PolytopeIntersector :=
  { mkPolytopeIntersector [] with intersections := [testRecord] }

/-- A concrete world-space plane used to exhibit the unguarded popTransform. -/
def basePlane : Plane := ![1, 0, 0, 0]

@[simp] theorem Vec3.sub_mk (a b c d e f : ℝ) :
    (⟨a, b, c⟩ : Vec3) - ⟨d, e, f⟩ = ⟨a - d, b - e, c - f⟩ := rfl

@[simp] theorem Vec3.add_mk (a b c d e f : ℝ) :
    (⟨a, b, c⟩ : Vec3) + ⟨d, e, f⟩ = ⟨a + d, b + e, c + f⟩ := rfl

@[simp] theorem Vec3.smul_mk (r a b c : ℝ) :
    r • (⟨a, b, c⟩ : Vec3) = ⟨r * a, r * b, r * c⟩ := rfl

@[simp] theorem Vec3.dot_mk (a b c d e f : ℝ) :
    Vec3.dot ⟨a, b, c⟩ ⟨d, e, f⟩ = a * d + b * e + c * f := rfl

@[simp] theorem Vec3.cross_mk (a b c d e f : ℝ) :
    Vec3.cross ⟨a, b, c⟩ ⟨d, e, f⟩
      = ⟨b * f - c * e, c * d - a * f, a * e - b * d⟩ := rfl

@[simp] theorem Vec3.default_def : (default : Vec3) = ⟨0, 0, 0⟩ := rfl

/-- C8: `intersects(boundingSphere)` returns false exactly on invalid bounding
spheres, and true on every valid one regardless of the polytope state. -/
theorem intersects_sphere_valid (s : PolytopeIntersector) (bs : dsphere) :
    s.intersects bs = true ↔ bs.valid := by
  by_cases h : bs.valid <;> simp [PolytopeIntersector.intersects, h]

/-- C9: `intersectDraw` and `intersectDrawIndexed` each return true exactly when the
intersection result list is longer on return than it was on entry. -/
theorem intersectDraw_result_iff (s : PolytopeIntersector) (a b c d a' b' c' d' : ℕ) :
    ((s.intersectDraw a b c d).1 = true ↔
        s.intersections.length < (s.intersectDraw a b c d).2.intersections.length)
      ∧ ((s.intersectDrawIndexed a' b' c' d').1 = true ↔
        s.intersections.length <
          (s.intersectDrawIndexed a' b' c' d').2.intersections.length) := by
  constructor <;>
    simp [PolytopeIntersector.intersectDraw, PolytopeIntersector.intersectDrawIndexed]

/-- C10: `add` appends exactly one new record at the end of the result list, storing
the local coordinate, the world coordinate obtained through the node-path transform,
and the supplied ratio, index ratios and instance index unchanged. -/
theorem add_appends_record (s : PolytopeIntersector) (coord : Vec3) (ratio : ℝ)
    (indexRatios : List (ℕ × ℝ)) (instanceIndex : ℕ) :
    ∃ rec : Intersection,
      (s.add coord ratio indexRatios instanceIndex).1.intersections
          = s.intersections ++ [rec]
        ∧ rec.localIntersection = coord
        ∧ rec.worldIntersection = applyMat (computeTransform s.nodePath) coord
        ∧ rec.localToWorld = computeTransform s.nodePath
        ∧ rec.ratio = ratio
        ∧ rec.indexRatios = indexRatios
        ∧ rec.instanceIndex = instanceIndex :=
  ⟨_, rfl, rfl, rfl, rfl, rfl, rfl, rfl⟩

/-- C5: the guard the spec requires is absent from the code: calling `popTransform`
when the polytope stack holds only the world-space entry removes that base entry. -/
theorem popTransform_unguarded_pops_base :
    (mkPolytopeIntersector [basePlane]).polytopeStack = [[basePlane]]
      ∧ ((mkPolytopeIntersector [basePlane]).popTransform).polytopeStack = [] := by
  exact ⟨rfl, by simp [mkPolytopeIntersector, PolytopeIntersector.popTransform]⟩

/-- C7: the NDC mapping of the camera constructor: for positive viewport sizes the
stated formulas hold (y flipped, with yMax and yMin swapped), a rectangle covering
the full viewport maps to exactly [-1, 1] on each axis, and a zero-size viewport
passes the raw input coordinates through unchanged. -/
theorem camera_ndc_mapping (viewport : Viewport) (xMin yMin xMax yMax : ℝ) :
    (0 < viewport.width →
        ndc_xMin viewport xMin = 2 * (xMin - viewport.x) / viewport.width - 1
        ∧ ndc_xMax viewport xMax = 2 * (xMax - viewport.x) / viewport.width - 1
        ∧ ndc_xMin viewport viewport.x = -1
        ∧ ndc_xMax viewport (viewport.x + viewport.width) = 1)
    ∧ (0 < viewport.height →
        ndc_yMin viewport yMin yMax = 1 - 2 * (yMax - viewport.y) / viewport.height
        ∧ ndc_yMax viewport yMin yMax = 1 - 2 * (yMin - viewport.y) / viewport.height
        ∧ ndc_yMin viewport yMin (viewport.y + viewport.height) = -1
        ∧ ndc_yMax viewport viewport.y yMax = 1)
    ∧ (viewport.width = 0 →
        ndc_xMin viewport xMin = xMin ∧ ndc_xMax viewport xMax = xMax)
    ∧ (viewport.height = 0 →
        ndc_yMin viewport yMin yMax = yMin ∧ ndc_yMax viewport yMin yMax = yMax) := by
  refine ⟨fun hw => ?_, fun hh => ?_, fun hw0 => ?_, fun hh0 => ?_⟩
  · have hw' : viewport.width ≠ 0 := ne_of_gt hw
    refine ⟨by rw [ndc_xMin, if_pos hw], by rw [ndc_xMax, if_pos hw], ?_, ?_⟩
    · rw [ndc_xMin, if_pos hw]
      field_simp
    · rw [ndc_xMax, if_pos hw]
      field_simp
      ring
  · have hh' : viewport.height ≠ 0 := ne_of_gt hh
    refine ⟨by rw [ndc_yMin, if_pos hh], by rw [ndc_yMax, if_pos hh], ?_, ?_⟩
    · rw [ndc_yMin, if_pos hh]
      field_simp
      ring
    · rw [ndc_yMax, if_pos hh]
      field_simp
  · have : ¬ (viewport.width > 0) := by rw [hw0]; exact lt_irrefl 0
    exact ⟨by rw [ndc_xMin, if_neg this], by rw [ndc_xMax, if_neg this]⟩
  · have : ¬ (viewport.height > 0) := by rw [hh0]; exact lt_irrefl 0
    exact ⟨by rw [ndc_yMin, if_neg this], by rw [ndc_yMax, if_neg this]⟩

/-- Witness for C7 at the concrete viewport (0, 0, 2, 2, 0, 1) with the rectangle
covering the full viewport. -/
theorem camera_ndc_mapping_witness :
    ndc_xMin ⟨0, 0, 2, 2, 0, 1⟩ 0 = -1
      ∧ ndc_xMax ⟨0, 0, 2, 2, 0, 1⟩ (0 + 2) = 1
      ∧ ndc_yMin ⟨0, 0, 2, 2, 0, 1⟩ 0 (0 + 2) = -1
      ∧ ndc_xMin ⟨0, 0, 0, 2, 0, 1⟩ 5 = 5 := by
  have h := camera_ndc_mapping ⟨0, 0, 2, 2, 0, 1⟩ 0 0 2 2
  have h0 := camera_ndc_mapping ⟨0, 0, 0, 2, 0, 1⟩ 5 0 5 2
  have hw : (0:ℝ) < 2 := by norm_num
  exact ⟨(h.1 hw).2.2.1, (h.1 hw).2.2.2, (h.2.1 hw).2.2.1, (h0.2.2.1 rfl).1⟩

/-- C4: `pushTransform` computes the new local-to-world matrix by applying the
transform to the previous local-to-world stack top (identity when that stack is
empty), and pushes the world-space polytope of stack index 0 — not the previous stack
top — with every plane transformed by the new matrix, preserving plane count and
order. -/
theorem pushTransform_spec (s : PolytopeIntersector) (t : Mat4 → Mat4)
    (w : Polytope) (rest : List Polytope) (hw : s.polytopeStack = w :: rest) :
    ∃ L : Mat4,
      (s.localToWorldStack = [] → L = t 1)
      ∧ (∀ (pre : List Mat4) (m : Mat4), s.localToWorldStack = pre ++ [m] → L = t m)
      ∧ (s.pushTransform t).localToWorldStack = s.localToWorldStack ++ [L]
      ∧ (s.pushTransform t).worldToLocalStack = s.worldToLocalStack ++ [L⁻¹]
      ∧ (s.pushTransform t).polytopeStack
          = s.polytopeStack ++ [w.map (fun pl => planeMulMat pl L)]
      ∧ (w.map (fun pl => planeMulMat pl L)).length = w.length := by
  cases hL : s.localToWorldStack.getLast? with
  | none =>
      refine ⟨t 1, fun _ => rfl, ?_, ?_, ?_, ?_, ?_⟩
      · intro pre m hpre
        rw [hpre, List.getLast?_concat] at hL
        exact absurd hL (by simp)
      · simp [PolytopeIntersector.pushTransform, hL]
      · simp [PolytopeIntersector.pushTransform, hL]
      · simp [PolytopeIntersector.pushTransform, hL, hw]
      · simp
  | some m =>
      refine ⟨t m, ?_, ?_, ?_, ?_, ?_, ?_⟩
      · intro hnil
        rw [hnil] at hL
        exact absurd hL (by simp)
      · intro pre m' hpre
        rw [hpre, List.getLast?_concat] at hL
        injection hL with hL
        rw [hL]
      · simp [PolytopeIntersector.pushTransform, hL]
      · simp [PolytopeIntersector.pushTransform, hL]
      · simp [PolytopeIntersector.pushTransform, hL, hw]
      · simp

@[simp] theorem pushCount_nil : pushCount [] = 0 := rfl

@[simp] theorem popCount_nil : popCount [] = 0 := rfl

@[simp] theorem pushCount_cons_push (t : Mat4 → Mat4) (l : List StackOp) :
    pushCount (StackOp.push t :: l) = pushCount l + 1 := by
  simp [pushCount, List.countP_cons, StackOp.isPush]

@[simp] theorem pushCount_cons_pop (l : List StackOp) :
    pushCount (StackOp.pop :: l) = pushCount l := by
  simp [pushCount, List.countP_cons, StackOp.isPush]

@[simp] theorem popCount_cons_push (t : Mat4 → Mat4) (l : List StackOp) :
    popCount (StackOp.push t :: l) = popCount l := by
  simp [popCount, List.countP_cons, StackOp.isPush]

@[simp] theorem popCount_cons_pop (l : List StackOp) :
    popCount (StackOp.pop :: l) = popCount l + 1 := by
  simp [popCount, List.countP_cons, StackOp.isPush]

@[simp] theorem execOps_nil (s : PolytopeIntersector) : execOps s [] = s := rfl

@[simp] theorem execOps_cons (s : PolytopeIntersector) (op : StackOp)
    (ops : List StackOp) : execOps s (op :: ops) = execOps (applyOp s op) ops := rfl

/-- Dropping the last element of a list with at least two elements keeps its head. -/
theorem head?_dropLast {α : Type} (l : List α) (h : 2 ≤ l.length) :
    l.dropLast.head? = l.head? := by
  match l with
  | [] => simp at h
  | [a] => simp at h
  | a :: b :: rest => rfl

/-- Invariant of the three parallel stacks under any prefix-balanced callback
sequence, generalised over the starting state. -/
theorem execOps_general (ops : List StackOp) :
    ∀ (s : PolytopeIntersector) (w : Polytope),
      s.polytopeStack.length = s.localToWorldStack.length + 1 →
      s.worldToLocalStack.length = s.localToWorldStack.length →
      s.polytopeStack.head? = some w →
      (∀ n, popCount (ops.take n)
          ≤ pushCount (ops.take n) + s.localToWorldStack.length) →
      (execOps s ops).polytopeStack.length
          = (execOps s ops).localToWorldStack.length + 1
        ∧ (execOps s ops).worldToLocalStack.length
          = (execOps s ops).localToWorldStack.length
        ∧ (execOps s ops).localToWorldStack.length + popCount ops
          = s.localToWorldStack.length + pushCount ops
        ∧ (execOps s ops).polytopeStack.head? = some w := by
  induction ops with
  | nil =>
      intro s w h1 h2 h3 _
      exact ⟨h1, h2, by simp, h3⟩
  | cons op rest ih =>
      intro s w h1 h2 h3 hbal
      cases op with
      | push t =>
          obtain ⟨a, tl, hps⟩ : ∃ a tl, s.polytopeStack = a :: tl := by
            cases hps : s.polytopeStack with
            | nil => rw [hps] at h3; simp at h3
            | cons a tl => exact ⟨a, tl, rfl⟩
          have ha : a = w := by rw [hps] at h3; simpa using h3
          have hp1 : (s.pushTransform t).polytopeStack.length
              = s.polytopeStack.length + 1 := by
            simp [PolytopeIntersector.pushTransform]
          have hp2 : (s.pushTransform t).localToWorldStack.length
              = s.localToWorldStack.length + 1 := by
            simp [PolytopeIntersector.pushTransform]
          have hp3 : (s.pushTransform t).worldToLocalStack.length
              = s.worldToLocalStack.length + 1 := by
            simp [PolytopeIntersector.pushTransform]
          have hp4 : (s.pushTransform t).polytopeStack.head? = some w := by
            simp [PolytopeIntersector.pushTransform, hps, ha]
          have hbal' : ∀ n, popCount (rest.take n)
              ≤ pushCount (rest.take n)
                + (s.pushTransform t).localToWorldStack.length := by
            intro n
            have := hbal (n + 1)
            simp only [List.take_succ_cons, pushCount_cons_push,
              popCount_cons_push] at this
            rw [hp2]
            omega
          have hres := ih (s.pushTransform t) w (by rw [hp1, hp2, h1])
            (by rw [hp3, hp2, h2]) hp4 hbal'
          refine ⟨hres.1, hres.2.1, ?_, hres.2.2.2⟩
          have := hres.2.2.1
          simp only [execOps_cons, applyOp] at this ⊢
          rw [hp2] at this
          simp only [pushCount_cons_push, popCount_cons_push]
          omega
      | pop =>
          have hlen1 : 1 ≤ s.localToWorldStack.length := by
            have := hbal 1
            simpa using this
          have hq1 : (s.popTransform).polytopeStack.length
              = s.polytopeStack.length - 1 := by
            simp [PolytopeIntersector.popTransform]
          have hq2 : (s.popTransform).localToWorldStack.length
              = s.localToWorldStack.length - 1 := by
            simp [PolytopeIntersector.popTransform]
          have hq3 : (s.popTransform).worldToLocalStack.length
              = s.worldToLocalStack.length - 1 := by
            simp [PolytopeIntersector.popTransform]
          have hq4 : (s.popTransform).polytopeStack.head? = some w := by
            have : (s.popTransform).polytopeStack.head? = s.polytopeStack.head? := by
              simp only [PolytopeIntersector.popTransform]
              exact head?_dropLast s.polytopeStack (by omega)
            rw [this, h3]
          have hbal' : ∀ n, popCount (rest.take n)
              ≤ pushCount (rest.take n) + (s.popTransform).localToWorldStack.length := by
            intro n
            have := hbal (n + 1)
            simp only [List.take_succ_cons, pushCount_cons_pop,
              popCount_cons_pop] at this
            rw [hq2]
            omega
          have hres := ih (s.popTransform) w (by rw [hq1, hq2, h1]; omega)
            (by rw [hq3, hq2, h2]) hq4 hbal'
          refine ⟨hres.1, hres.2.1, ?_, hres.2.2.2⟩
          have := hres.2.2.1
          simp only [execOps_cons, applyOp] at this ⊢
          rw [hq2] at this
          simp only [pushCount_cons_pop, popCount_cons_pop]
          omega

/-- C6: under every balanced push/pop sequence the three parallel stacks stay in
lockstep (polytope depth equals nesting depth plus one, the matrix stacks equal the
nesting depth) and the world-space polytope remains at stack index 0 unaltered;
moreover a matched pushTransform/popTransform pair restores all three stacks. -/
theorem stack_discipline (ops : List StackOp) (world : Polytope)
    (hbal : ∀ n, popCount (ops.take n) ≤ pushCount (ops.take n)) :
    ((execOps (mkPolytopeIntersector world) ops).polytopeStack.length
        = (execOps (mkPolytopeIntersector world) ops).localToWorldStack.length + 1
      ∧ (execOps (mkPolytopeIntersector world) ops).worldToLocalStack.length
        = (execOps (mkPolytopeIntersector world) ops).localToWorldStack.length
      ∧ (execOps (mkPolytopeIntersector world) ops).localToWorldStack.length
          + popCount ops = pushCount ops
      ∧ (execOps (mkPolytopeIntersector world) ops).polytopeStack.head? = some world)
    ∧ ∀ (s : PolytopeIntersector) (t : Mat4 → Mat4),
        ((s.pushTransform t).popTransform).polytopeStack = s.polytopeStack
        ∧ ((s.pushTransform t).popTransform).localToWorldStack = s.localToWorldStack
        ∧ ((s.pushTransform t).popTransform).worldToLocalStack
          = s.worldToLocalStack := by
  constructor
  · have h := execOps_general ops (mkPolytopeIntersector world) world
      (by simp [mkPolytopeIntersector]) (by simp [mkPolytopeIntersector])
      (by simp [mkPolytopeIntersector])
      (by intro n; simpa [mkPolytopeIntersector] using hbal n)
    refine ⟨h.1, h.2.1, ?_, h.2.2.2⟩
    have := h.2.2.1
    simpa [mkPolytopeIntersector] using this
  · intro s t
    refine ⟨?_, ?_, ?_⟩ <;>
      simp [PolytopeIntersector.pushTransform, PolytopeIntersector.popTransform,
        List.dropLast_concat]

/-- Witness for C6 at the empty callback sequence and a concrete world polytope. -/
theorem stack_discipline_witness :
    ((execOps (mkPolytopeIntersector [basePlane]) []).polytopeStack.length
        = (execOps (mkPolytopeIntersector [basePlane]) []).localToWorldStack.length
            + 1
      ∧ (execOps (mkPolytopeIntersector [basePlane]) []).worldToLocalStack.length
        = (execOps (mkPolytopeIntersector [basePlane]) []).localToWorldStack.length
      ∧ (execOps (mkPolytopeIntersector [basePlane]) []).localToWorldStack.length
          + popCount [] = pushCount []
      ∧ (execOps (mkPolytopeIntersector [basePlane]) []).polytopeStack.head?
        = some [basePlane])
    ∧ ∀ (s : PolytopeIntersector) (t : Mat4 → Mat4),
        ((s.pushTransform t).popTransform).polytopeStack = s.polytopeStack
        ∧ ((s.pushTransform t).popTransform).localToWorldStack = s.localToWorldStack
        ∧ ((s.pushTransform t).popTransform).worldToLocalStack
          = s.worldToLocalStack :=
  stack_discipline [] [basePlane] (by intro n; simp)

/-- Witness for C4 at a concrete state and transform. -/
theorem pushTransform_spec_witness :
    ∃ L : Mat4,
      ((mkPolytopeIntersector []).localToWorldStack = [] → L = id 1)
      ∧ (∀ (pre : List Mat4) (m : Mat4),
          (mkPolytopeIntersector []).localToWorldStack = pre ++ [m] → L = id m)
      ∧ ((mkPolytopeIntersector []).pushTransform id).localToWorldStack
          = (mkPolytopeIntersector []).localToWorldStack ++ [L]
      ∧ ((mkPolytopeIntersector []).pushTransform id).worldToLocalStack
          = (mkPolytopeIntersector []).worldToLocalStack ++ [L⁻¹]
      ∧ ((mkPolytopeIntersector []).pushTransform id).polytopeStack
          = (mkPolytopeIntersector []).polytopeStack
              ++ [List.map (fun pl => planeMulMat pl L) []]
      ∧ (List.map (fun pl => planeMulMat pl L) []).length = ([] : Polytope).length :=
  pushTransform_spec (mkPolytopeIntersector []) id [] [] rfl

theorem Vec3.sub_def (a b : Vec3) : a - b = ⟨a.x - b.x, a.y - b.y, a.z - b.z⟩ := rfl

theorem Vec3.smul_def (r : ℝ) (v : Vec3) : r • v = ⟨r * v.x, r * v.y, r * v.z⟩ := rfl

theorem Vec3.zero_smul_vec (v : Vec3) : (0 : ℝ) • v = ⟨0, 0, 0⟩ := by
  rw [Vec3.smul_def]
  norm_num

theorem Vec3.cross_zero_left (v : Vec3) : Vec3.cross ⟨0, 0, 0⟩ v = ⟨0, 0, 0⟩ := by
  show Vec3.mk (0 * v.z - 0 * v.y) (0 * v.x - 0 * v.z) (0 * v.y - 0 * v.x)
      = Vec3.mk 0 0 0
  norm_num

theorem Vec3.dot_zero_left (v : Vec3) : Vec3.dot ⟨0, 0, 0⟩ v = 0 := by
  show 0 * v.x + 0 * v.y + 0 * v.z = 0
  norm_num

/-- C2: `TriangleIntersector::intersect` returns false and leaves the intersector
state (in particular the result list) untouched whenever the determinant lies in the
dead zone `|det| <= 1e-10`, or the barycentric tests fail in the branch selected by
the determinant's sign (u or v outside the range bounded by det, or u + v beyond
det), or the parametric hit distance t along the normalised direction falls outside
`[0, segment length]`. -/
theorem triangle_reject (ti : TriangleIntersector) (s : PolytopeIntersector)
    (i0 i1 i2 : ℕ)
    (hrej :
      |ti.triDet i0 i1 i2| ≤ 1 / 10 ^ 10
      ∨ (ti.triDet i0 i1 i2 > 1 / 10 ^ 10
          ∧ (ti.triU i0 i1 i2 < 0 ∨ ti.triU i0 i1 i2 > ti.triDet i0 i1 i2
             ∨ ti.triV i0 i1 i2 < 0 ∨ ti.triV i0 i1 i2 > ti.triDet i0 i1 i2
             ∨ ti.triU i0 i1 i2 + ti.triV i0 i1 i2 > ti.triDet i0 i1 i2))
      ∨ (ti.triDet i0 i1 i2 < -(1 / 10 ^ 10)
          ∧ (ti.triU i0 i1 i2 > 0 ∨ ti.triU i0 i1 i2 < ti.triDet i0 i1 i2
             ∨ ti.triV i0 i1 i2 > 0 ∨ ti.triV i0 i1 i2 < ti.triDet i0 i1 i2
             ∨ ti.triU i0 i1 i2 + ti.triV i0 i1 i2 < ti.triDet i0 i1 i2))
      ∨ (ti.triT i0 i1 i2 < 0 ∨ ti.triT i0 i1 i2 > ti._length)) :
    ti.intersect s i0 i1 i2 = (false, s) := by
  simp only [TriangleIntersector.triDet, TriangleIntersector.triU,
    TriangleIntersector.triV, TriangleIntersector.triT] at hrej
  simp only [TriangleIntersector.intersect]
  split_ifs
  any_goals rfl
  · exfalso
    rename_i hd hu hv huv ht
    push_neg at hu hv huv ht
    rcases hrej with habs | ⟨hd', hc⟩ | ⟨hd', hc⟩ | hc
    · rw [abs_le] at habs
      linarith [habs.2]
    · rcases hc with hx | hx | hx | hx | hx <;>
        linarith [hu.1, hu.2, hv.1, hv.2, huv, ht.1, ht.2]
    · linarith
    · rcases hc with hx | hx <;> linarith [ht.1, ht.2]
  · exfalso
    rename_i hd0 hd hu hv huv ht
    push_neg at hu hv huv ht
    rcases hrej with habs | ⟨hd', hc⟩ | ⟨hd', hc⟩ | hc
    · rw [abs_le] at habs
      linarith [habs.1]
    · linarith
    · rcases hc with hx | hx | hx | hx | hx <;>
        linarith [hu.1, hu.2, hv.1, hv.2, huv, ht.1, ht.2]
    · rcases hc with hx | hx <;> linarith [ht.1, ht.2]

/-- C3: every accepted intersection of a freshly constructed triangle intersector
appends one record whose barycentric weights sum to 1, whose ratio equals the
parametric distance t divided by the segment length and lies in [0, 1], whose local
intersection point is the barycentric combination of the triangle's vertices, and
which carries the per-index barycentric pairs and the supplied instance index. -/
theorem triangle_accept_record (in_start in_end : Vec3) (verts : List Vec3)
    (inst : ℕ) (s s' : PolytopeIntersector) (i0 i1 i2 : ℕ)
    (h : (mkTriangleIntersectorInst in_start in_end verts inst).intersect s i0 i1 i2
        = (true, s')) :
    ∃ (rec : Intersection) (r0 r1 r2 : ℝ),
      s'.intersections = s.intersections ++ [rec]
      ∧ rec.indexRatios = [(i0, r0), (i1, r1), (i2, r2)]
      ∧ r0 + r1 + r2 = 1
      ∧ rec.ratio
          = (mkTriangleIntersectorInst in_start in_end verts inst).triT i0 i1 i2
            / (mkTriangleIntersectorInst in_start in_end verts inst)._length
      ∧ 0 ≤ rec.ratio ∧ rec.ratio ≤ 1
      ∧ rec.localIntersection
          = r0 • verts.getD i0 default + r1 • verts.getD i1 default
            + r2 • verts.getD i2 default
      ∧ rec.instanceIndex = inst := by
  have hlen0 : 0 ≤ (mkTriangleIntersectorInst in_start in_end verts inst)._length :=
    Real.sqrt_nonneg _
  have hinv_eq : (mkTriangleIntersectorInst in_start in_end verts inst)._inverse_length
      = if (mkTriangleIntersectorInst in_start in_end verts inst)._length ≠ 0 then
          1 / (mkTriangleIntersectorInst in_start in_end verts inst)._length
        else 0 := rfl
  have hd_eq : (mkTriangleIntersectorInst in_start in_end verts inst)._d
      = (mkTriangleIntersectorInst in_start in_end verts inst)._inverse_length
          • (in_end - in_start) := rfl
  have hdzero : (mkTriangleIntersectorInst in_start in_end verts inst)._length = 0 →
      (mkTriangleIntersectorInst in_start in_end verts inst)._d = ⟨0, 0, 0⟩ := by
    intro h0
    rw [hd_eq, hinv_eq, if_neg (not_not.mpr h0), Vec3.zero_smul_vec]
  simp only [TriangleIntersector.intersect] at h
  split_ifs at h
  all_goals simp only [Prod.mk.injEq, Bool.false_eq_true, false_and, eq_self_iff_true,
    true_and] at h
  · -- positive-determinant acceptance
    rename_i hdet hu hv huv ht
    subst h
    have hlne : (mkTriangleIntersectorInst in_start in_end verts inst)._length ≠ 0 := by
      intro h0
      rw [hdzero h0, Vec3.cross_zero_left, Vec3.dot_zero_left] at hdet
      norm_num at hdet
    have hlpos : 0 < (mkTriangleIntersectorInst in_start in_end verts inst)._length :=
      lt_of_le_of_ne hlen0 (Ne.symm hlne)
    have hinv1 : (mkTriangleIntersectorInst in_start in_end verts inst)._inverse_length
        = 1 / (mkTriangleIntersectorInst in_start in_end verts inst)._length := by
      rw [hinv_eq, if_pos hlne]
    push_neg at ht
    refine ⟨_, _, _, _, rfl, rfl, by ring, ?_, ?_, ?_, rfl, rfl⟩
    · show _ * (mkTriangleIntersectorInst in_start in_end verts inst)._inverse_length
          = _
      rw [hinv1, mul_one_div]
      simp only [TriangleIntersector.triT, TriangleIntersector.triDet]
    · show 0 ≤ _ * (mkTriangleIntersectorInst in_start in_end verts inst)._inverse_length
      rw [hinv1, mul_one_div]
      exact div_nonneg ht.1 hlen0
    · show _ * (mkTriangleIntersectorInst in_start in_end verts inst)._inverse_length ≤ 1
      rw [hinv1, mul_one_div, div_le_one hlpos]
      exact ht.2
  · -- negative-determinant acceptance
    rename_i hd0 hdet hu hv huv ht
    subst h
    have hlne : (mkTriangleIntersectorInst in_start in_end verts inst)._length ≠ 0 := by
      intro h0
      rw [hdzero h0, Vec3.cross_zero_left, Vec3.dot_zero_left] at hdet
      norm_num at hdet
    have hlpos : 0 < (mkTriangleIntersectorInst in_start in_end verts inst)._length :=
      lt_of_le_of_ne hlen0 (Ne.symm hlne)
    have hinv1 : (mkTriangleIntersectorInst in_start in_end verts inst)._inverse_length
        = 1 / (mkTriangleIntersectorInst in_start in_end verts inst)._length := by
      rw [hinv_eq, if_pos hlne]
    push_neg at ht
    refine ⟨_, _, _, _, rfl, rfl, by ring, ?_, ?_, ?_, rfl, rfl⟩
    · show _ * (mkTriangleIntersectorInst in_start in_end verts inst)._inverse_length
          = _
      rw [hinv1, mul_one_div]
      simp only [TriangleIntersector.triT, TriangleIntersector.triDet]
    · show 0 ≤ _ * (mkTriangleIntersectorInst in_start in_end verts inst)._inverse_length
      rw [hinv1, mul_one_div]
      exact div_nonneg ht.1 hlen0
    · show _ * (mkTriangleIntersectorInst in_start in_end verts inst)._inverse_length ≤ 1
      rw [hinv1, mul_one_div, div_le_one hlpos]
      exact ht.2

theorem sqrt_four : Real.sqrt 4 = 2 := by
  rw [show (4 : ℝ) = 2 ^ 2 by norm_num]
  exact Real.sqrt_sq (by norm_num)

theorem testTI_length : testTI._length = 2 := by
  have h1 : Vec3.dot ((⟨1/4, 1/4, -1⟩ : Vec3) - ⟨1/4, 1/4, 1⟩)
      ((⟨1/4, 1/4, -1⟩ : Vec3) - ⟨1/4, 1/4, 1⟩) = 4 := by
    simp
    norm_num
  show Real.sqrt (Vec3.dot ((⟨1/4, 1/4, -1⟩ : Vec3) - ⟨1/4, 1/4, 1⟩)
      ((⟨1/4, 1/4, -1⟩ : Vec3) - ⟨1/4, 1/4, 1⟩)) = 2
  rw [h1, sqrt_four]

theorem testTI_inv_length : testTI._inverse_length = 1 / 2 := by
  show (if testTI._length ≠ 0 then 1 / testTI._length else 0) = 1 / 2
  rw [testTI_length]
  norm_num

theorem testTI_d : testTI._d = ⟨0, 0, -1⟩ := by
  show testTI._inverse_length • ((⟨1/4, 1/4, -1⟩ : Vec3) - ⟨1/4, 1/4, 1⟩) = ⟨0, 0, -1⟩
  rw [testTI_inv_length]
  simp
  norm_num

theorem testTI_intersect_eval :
    testTI.intersect (mkPolytopeIntersector []) 0 1 2 = (true, testState) := by
  have hverts : testTI.vertices = testVertices := rfl
  have hstart : testTI.start = ⟨1/4, 1/4, 1⟩ := rfl
  have hinst : testTI.instanceIndex = 0 := rfl
  simp only [TriangleIntersector.intersect, hverts, hstart, hinst, testTI_d,
    testTI_length, testTI_inv_length, testVertices]
  norm_num [PolytopeIntersector.add, mkPolytopeIntersector, testState, testRecord,
    computeTransform, Intersection.mk.injEq, PolytopeIntersector.mk.injEq]

/-- C1: for the triangle with vertices (0,0,0), (1,0,0), (0,1,0) and the directed
segment from (0.25, 0.25, 1) to (0.25, 0.25, -1), intersect returns true and records
a hit at local coordinate (0.25, 0.25, 0) with ratio 0.5 and barycentric weights
(0.5, 0.25, 0.25) for the vertex indices (i0, i1, i2). -/
theorem triangle_test_case :
    (testTI.intersect (mkPolytopeIntersector []) 0 1 2).1 = true
    ∧ ((testTI.intersect (mkPolytopeIntersector []) 0 1 2).2.intersections.map
        (fun rec => (rec.localIntersection, rec.ratio, rec.indexRatios)))
      = [((⟨1/4, 1/4, 0⟩ : Vec3), (1/2 : ℝ),
          [((0 : ℕ), (1/2 : ℝ)), (1, 1/4), (2, 1/4)])] := by
  rw [testTI_intersect_eval]
  exact ⟨rfl, by simp [testState, testRecord, mkPolytopeIntersector]⟩

theorem zeroseg_d :
    (mkTriangleIntersector ⟨0, 0, 0⟩ ⟨0, 0, 0⟩ ([] : List Vec3))._d = ⟨0, 0, 0⟩ := by
  have hsub : ((⟨0, 0, 0⟩ : Vec3) - ⟨0, 0, 0⟩) = ⟨0, 0, 0⟩ := by
    simp
  have hlen : (mkTriangleIntersector ⟨0, 0, 0⟩ ⟨0, 0, 0⟩ ([] : List Vec3))._length
      = 0 := by
    show Real.sqrt (Vec3.dot ((⟨0, 0, 0⟩ : Vec3) - ⟨0, 0, 0⟩)
        ((⟨0, 0, 0⟩ : Vec3) - ⟨0, 0, 0⟩)) = 0
    rw [hsub, Vec3.dot_zero_left, Real.sqrt_zero]
  have hinv : (mkTriangleIntersector ⟨0, 0, 0⟩ ⟨0, 0, 0⟩
      ([] : List Vec3))._inverse_length = 0 := by
    show (if (mkTriangleIntersector ⟨0, 0, 0⟩ ⟨0, 0, 0⟩ ([] : List Vec3))._length ≠ 0
        then 1 / (mkTriangleIntersector ⟨0, 0, 0⟩ ⟨0, 0, 0⟩ ([] : List Vec3))._length
        else 0) = 0
    rw [hlen]
    norm_num
  show (mkTriangleIntersector ⟨0, 0, 0⟩ ⟨0, 0, 0⟩ ([] : List Vec3))._inverse_length
      • ((⟨0, 0, 0⟩ : Vec3) - ⟨0, 0, 0⟩) = ⟨0, 0, 0⟩
  rw [hinv, Vec3.zero_smul_vec]

/-- Witness for C2: a zero-length segment yields a determinant inside the dead zone
and the test is rejected with the state untouched. -/
theorem triangle_reject_witness :
    |TriangleIntersector.triDet (mkTriangleIntersector ⟨0, 0, 0⟩ ⟨0, 0, 0⟩ []) 0 1 2|
        ≤ 1 / 10 ^ 10
    ∧ (mkTriangleIntersector ⟨0, 0, 0⟩ ⟨0, 0, 0⟩ []).intersect
        (mkPolytopeIntersector []) 0 1 2 = (false, mkPolytopeIntersector []) := by
  have hd0 : TriangleIntersector.triDet
      (mkTriangleIntersector ⟨0, 0, 0⟩ ⟨0, 0, 0⟩ []) 0 1 2 = 0 := by
    simp only [TriangleIntersector.triDet]
    rw [zeroseg_d, Vec3.cross_zero_left, Vec3.dot_zero_left]
  have habs : |TriangleIntersector.triDet
      (mkTriangleIntersector ⟨0, 0, 0⟩ ⟨0, 0, 0⟩ []) 0 1 2| ≤ 1 / 10 ^ 10 := by
    rw [hd0]
    norm_num
  exact ⟨habs, triangle_reject _ _ 0 1 2 (Or.inl habs)⟩

/-- Witness for C3 at the spec's concrete accepted test case. -/
theorem triangle_accept_record_witness :
    ∃ (rec : Intersection) (r0 r1 r2 : ℝ),
      testState.intersections = (mkPolytopeIntersector []).intersections ++ [rec]
      ∧ rec.indexRatios = [(0, r0), (1, r1), (2, r2)]
      ∧ r0 + r1 + r2 = 1
      ∧ rec.ratio
          = (mkTriangleIntersectorInst ⟨1/4, 1/4, 1⟩ ⟨1/4, 1/4, -1⟩
              testVertices 0).triT 0 1 2
            / (mkTriangleIntersectorInst ⟨1/4, 1/4, 1⟩ ⟨1/4, 1/4, -1⟩
              testVertices 0)._length
      ∧ 0 ≤ rec.ratio ∧ rec.ratio ≤ 1
      ∧ rec.localIntersection
          = r0 • testVertices.getD 0 default + r1 • testVertices.getD 1 default
            + r2 • testVertices.getD 2 default
      ∧ rec.instanceIndex = 0 :=
  triangle_accept_record ⟨1/4, 1/4, 1⟩ ⟨1/4, 1/4, -1⟩ testVertices 0
    (mkPolytopeIntersector []) testState 0 1 2 testTI_intersect_eval

end vsg
